import Mathlib

/-!
Shallow embedding of the laminaFS-rs binding (src/src/lib.rs).

The crate is a thin safe wrapper over the native laminaFS engine, reached
through FFI functions named lfs_*.  The engine itself lives outside this
crate, so every wrapper function that calls into the engine is embedded here
with the engine's observable response passed in as an explicit parameter:
a MountOutcome for lfs_create_mount_with_permissions, and an EngineWorkItem
(the frozen result/bytes/buffer data that the work-item pointer exposes once
the operation completes) for each operation-submission function.

Rust strings are embedded as byte lists (List UInt8); CString::new fails,
and hence .unwrap() panics, exactly when the byte list contains a 0 byte.
Panics are embedded as the none case of an Option-valued result.
-/

set_option autoImplicit false

/-- Engine error-code constant from the generated bindings.  The concrete
numerals chosen for the eight lfs_error_code_t constants stand in for the
values bindgen emits from the C header (which is outside src/); every claim
below depends only on the constants being pairwise distinct. -/
def lfs_error_code_t_LFS_OK : Nat := 0

/-- Engine error-code constant, see lfs_error_code_t_LFS_OK. -/
def lfs_error_code_t_LFS_NOT_FOUND : Nat := 1

/-- Engine error-code constant, see lfs_error_code_t_LFS_OK. -/
def lfs_error_code_t_LFS_INVALID_DEVICE : Nat := 2

/-- Engine error-code constant, see lfs_error_code_t_LFS_OK. -/
def lfs_error_code_t_LFS_ALREADY_EXISTS : Nat := 3

/-- Engine error-code constant, see lfs_error_code_t_LFS_OK. -/
def lfs_error_code_t_LFS_OUT_OF_SPACE : Nat := 4

/-- Engine error-code constant, see lfs_error_code_t_LFS_OK. -/
def lfs_error_code_t_LFS_PERMISSIONS_ERROR : Nat := 5

/-- Engine error-code constant, see lfs_error_code_t_LFS_OK. -/
def lfs_error_code_t_LFS_UNSUPPORTED : Nat := 6

/-- Engine error-code constant, see lfs_error_code_t_LFS_OK. -/
def lfs_error_code_t_LFS_GENERIC_ERROR : Nat := 7

/-- The eight defined lamina error codes: the values lfs_error_code_t can
legitimately take according to the bindings. -/
def laminaErrorCodes : List Nat :=
  [lfs_error_code_t_LFS_OK,
   lfs_error_code_t_LFS_NOT_FOUND,
   lfs_error_code_t_LFS_INVALID_DEVICE,
   lfs_error_code_t_LFS_ALREADY_EXISTS,
   lfs_error_code_t_LFS_OUT_OF_SPACE,
   lfs_error_code_t_LFS_PERMISSIONS_ERROR,
   lfs_error_code_t_LFS_UNSUPPORTED,
   lfs_error_code_t_LFS_GENERIC_ERROR]

/-- pub enum ResultCode (src/src/lib.rs lines 33-43). -/
inductive ResultCode where
  | Ok
  | NotFound
  | InvalidDevice
  | AlreadyExists
  | OutOfSpace
  | PermissionsError
  | Unsupported
  | GenericError
  deriving DecidableEq

/-- ResultCode::to_lamina (src/src/lib.rs lines 46-57). -/
def ResultCode.to_lamina : ResultCode → Nat
  | ResultCode.Ok => lfs_error_code_t_LFS_OK
  | ResultCode.NotFound => lfs_error_code_t_LFS_NOT_FOUND
  | ResultCode.InvalidDevice => lfs_error_code_t_LFS_INVALID_DEVICE
  | ResultCode.AlreadyExists => lfs_error_code_t_LFS_ALREADY_EXISTS
  | ResultCode.OutOfSpace => lfs_error_code_t_LFS_OUT_OF_SPACE
  | ResultCode.PermissionsError => lfs_error_code_t_LFS_PERMISSIONS_ERROR
  | ResultCode.Unsupported => lfs_error_code_t_LFS_UNSUPPORTED
  | ResultCode.GenericError => lfs_error_code_t_LFS_GENERIC_ERROR

/-- ResultCode::from_lamina (src/src/lib.rs lines 59-71).  The Rust match
arms are tried in source order; the final catch-all arm panics, embedded
here as none. -/
def ResultCode.from_lamina (error : Nat) : Option ResultCode :=
  if error = lfs_error_code_t_LFS_ALREADY_EXISTS then some ResultCode.AlreadyExists
  else if error = lfs_error_code_t_LFS_GENERIC_ERROR then some ResultCode.GenericError
  else if error = lfs_error_code_t_LFS_INVALID_DEVICE then some ResultCode.InvalidDevice
  else if error = lfs_error_code_t_LFS_NOT_FOUND then some ResultCode.NotFound
  else if error = lfs_error_code_t_LFS_OK then some ResultCode.Ok
  else if error = lfs_error_code_t_LFS_OUT_OF_SPACE then some ResultCode.OutOfSpace
  else if error = lfs_error_code_t_LFS_PERMISSIONS_ERROR then some ResultCode.PermissionsError
  else if error = lfs_error_code_t_LFS_UNSUPPORTED then some ResultCode.Unsupported
  else none

/-- Engine mount-permission constant from the generated bindings; as with the
error codes, the concrete numerals stand in for the C header's values and no
claim depends on them. -/
def lfs_mount_permissions_t_LFS_MOUNT_DEFAULT : Nat := 63

/-- bitflags struct MountPermissions (src/src/lib.rs lines 74-85): a u32 bit
set.  Only the Default member is needed by the claims. -/
structure MountPermissions where
  bits : Nat
  deriving DecidableEq

/-- MountPermissions::Default. -/
def MountPermissions.Default : MountPermissions :=
  { bits := lfs_mount_permissions_t_LFS_MOUNT_DEFAULT }

/-- CString::new on a Rust string embedded as its UTF-8 bytes: fails (and the
source's .unwrap() panics) exactly when the bytes contain a 0 byte. -/
def CString.new (s : List UInt8) : Option (List UInt8) :=
  if (0 : UInt8) ∈ s then none else some s

/-- The engine-side data behind an lfs_work_item_t pointer once the item is
complete: the result code lfs_work_item_get_result reads, the byte count
lfs_work_item_get_bytes reads, and the output buffer pointer
lfs_work_item_get_buffer reads — none when the pointer is null, otherwise the
byte contents of memory starting at the pointer. -/
structure EngineWorkItem where
  result : Nat
  bytes : Nat
  buffer : Option (Nat → UInt8)

/-- The engine's response to lfs_create_mount_with_permissions: the returned
lfs_mount_t value and the lfs_error_code_t written through the out-pointer. -/
structure MountOutcome where
  mount : Nat
  result_code : Nat

/-- pub struct LaminaFS (src/src/lib.rs lines 87-89): holds the engine
context handle. -/
structure LaminaFS where
  context : Nat

/-- pub struct Mount (src/src/lib.rs lines 307-310). -/
structure Mount where
  mount : Nat
  context : Nat

/-- pub struct WorkItem (src/src/lib.rs lines 336-342).  The WorkItemPtr
field is embedded as the EngineWorkItem data it will expose. -/
structure WorkItem where
  work_item : EngineWorkItem
  context : Nat
  write_buffer : Option (List UInt8)
  finished : Bool
  owns_buffer : Bool

/-- LaminaFS::create_mount_with_permissions (src/src/lib.rs lines 107-128).
Returns none when a CString conversion panics or when from_lamina panics on
an undefined engine code; otherwise Ok on LFS_OK and Err on anything else. -/
def LaminaFS.create_mount_with_permissions (fs : LaminaFS) (eng : MountOutcome)
    (device_type : Nat) (mount_point device_path : List UInt8)
    (permissions : MountPermissions) : Option (Except ResultCode Mount) :=
  match CString.new mount_point, CString.new device_path with
  | some _, some _ =>
      if eng.result_code = lfs_error_code_t_LFS_OK then
        some (Except.ok { mount := eng.mount, context := fs.context })
      else
        (ResultCode.from_lamina eng.result_code).map Except.error
  | _, _ => none

/-- LaminaFS::create_mount (src/src/lib.rs lines 130-132). -/
def LaminaFS.create_mount (fs : LaminaFS) (eng : MountOutcome) (device_type : Nat)
    (mount_point device_path : List UInt8) : Option (Except ResultCode Mount) :=
  fs.create_mount_with_permissions eng device_type mount_point device_path
    MountPermissions.Default

/-- LaminaFS::append_file (src/src/lib.rs lines 134-151). -/
def LaminaFS.append_file (fs : LaminaFS) (e : EngineWorkItem) (path : List UInt8)
    (buffer : List UInt8) : Option WorkItem :=
  (CString.new path).map fun _ =>
    { work_item := e, context := fs.context, write_buffer := some buffer,
      finished := false, owns_buffer := false }

/-- LaminaFS::read_file (src/src/lib.rs lines 153-169). -/
def LaminaFS.read_file (fs : LaminaFS) (e : EngineWorkItem) (path : List UInt8)
    (null_terminate : Bool) : Option WorkItem :=
  (CString.new path).map fun _ =>
    { work_item := e, context := fs.context, write_buffer := none,
      finished := false, owns_buffer := true }

/-- LaminaFS::read_file_segment (src/src/lib.rs lines 171-189). -/
def LaminaFS.read_file_segment (fs : LaminaFS) (e : EngineWorkItem) (path : List UInt8)
    (offset : Nat) (max_bytes : Nat) (null_terminate : Bool) : Option WorkItem :=
  (CString.new path).map fun _ =>
    { work_item := e, context := fs.context, write_buffer := none,
      finished := false, owns_buffer := true }

/-- LaminaFS::write_file (src/src/lib.rs lines 191-208). -/
def LaminaFS.write_file (fs : LaminaFS) (e : EngineWorkItem) (path : List UInt8)
    (buffer : List UInt8) : Option WorkItem :=
  (CString.new path).map fun _ =>
    { work_item := e, context := fs.context, write_buffer := some buffer,
      finished := false, owns_buffer := false }

/-- LaminaFS::write_file_segment (src/src/lib.rs lines 210-228). -/
def LaminaFS.write_file_segment (fs : LaminaFS) (e : EngineWorkItem) (path : List UInt8)
    (offset : Nat) (buffer : List UInt8) : Option WorkItem :=
  (CString.new path).map fun _ =>
    { work_item := e, context := fs.context, write_buffer := some buffer,
      finished := false, owns_buffer := false }

/-- LaminaFS::create_dir (src/src/lib.rs lines 230-245). -/
def LaminaFS.create_dir (fs : LaminaFS) (e : EngineWorkItem) (path : List UInt8) :
    Option WorkItem :=
  (CString.new path).map fun _ =>
    { work_item := e, context := fs.context, write_buffer := none,
      finished := false, owns_buffer := false }

/-- LaminaFS::delete_dir (src/src/lib.rs lines 247-262). -/
def LaminaFS.delete_dir (fs : LaminaFS) (e : EngineWorkItem) (path : List UInt8) :
    Option WorkItem :=
  (CString.new path).map fun _ =>
    { work_item := e, context := fs.context, write_buffer := none,
      finished := false, owns_buffer := false }

/-- LaminaFS::delete_file (src/src/lib.rs lines 264-279). -/
def LaminaFS.delete_file (fs : LaminaFS) (e : EngineWorkItem) (path : List UInt8) :
    Option WorkItem :=
  (CString.new path).map fun _ =>
    { work_item := e, context := fs.context, write_buffer := none,
      finished := false, owns_buffer := false }

/-- LaminaFS::file_exists (src/src/lib.rs lines 281-296). -/
def LaminaFS.file_exists (fs : LaminaFS) (e : EngineWorkItem) (path : List UInt8) :
    Option WorkItem :=
  (CString.new path).map fun _ =>
    { work_item := e, context := fs.context, write_buffer := none,
      finished := false, owns_buffer := false }

/-- WorkItem::wait (src/src/lib.rs lines 345-350): blocks on the engine item
only when not yet finished, then records completion.  The engine data the
item exposes is unchanged. -/
def WorkItem.wait (s : WorkItem) : WorkItem :=
  if s.finished then s else { s with finished := true }

/-- WorkItem::get_result (src/src/lib.rs lines 352-355): waits, then
translates lfs_work_item_get_result through from_lamina (none = the panic
on an undefined code). -/
def WorkItem.get_result (s : WorkItem) : WorkItem × Option ResultCode :=
  let s := s.wait
  (s, ResultCode.from_lamina s.work_item.result)

/-- WorkItem::get_bytes (src/src/lib.rs lines 357-360): waits, then returns
lfs_work_item_get_bytes (the u64-to-usize cast is the identity on the
64-bit targets the crate builds for). -/
def WorkItem.get_bytes (s : WorkItem) : WorkItem × Nat :=
  let s := s.wait
  (s, s.work_item.bytes)

/-- WorkItem::get_buffer (src/src/lib.rs lines 362-373): waits, reads the
length via get_bytes and the pointer via lfs_work_item_get_buffer; when the
pointer is non-null and the length positive the returned slice is the first
buffer_len bytes at the pointer, otherwise the empty slice. -/
def WorkItem.get_buffer (s : WorkItem) : WorkItem × List UInt8 :=
  let s := s.wait
  let buffer_len := s.get_bytes.2
  match s.work_item.buffer with
  | some mem => if buffer_len > 0 then (s, (List.range buffer_len).map mem) else (s, [])
  | none => (s, [])

/-- The calls Drop for WorkItem makes into the engine. -/
inductive EngineAction where
  | waitForWorkItem
  | freeBuffer
  | releaseWorkItem
  deriving DecidableEq

/-- impl Drop for WorkItem (src/src/lib.rs lines 376-385): the engine calls
the destructor performs, in order — wait (only if not yet finished, via
WorkItem::wait), lfs_work_item_free_buffer only when owns_buffer, then
lfs_release_work_item returning the slot to the context pool. -/
def WorkItem.dropActions (s : WorkItem) : List EngineAction :=
  (if s.finished then [] else [EngineAction.waitForWorkItem]) ++
  (if s.owns_buffer then [EngineAction.freeBuffer] else []) ++
  [EngineAction.releaseWorkItem]

/-- The output view determined by the frozen engine data of a work item:
the bytes get_buffer exposes once the item is complete. -/
def EngineWorkItem.outputView (e : EngineWorkItem) : List UInt8 :=
  match e.buffer with
  | some mem => if e.bytes > 0 then (List.range e.bytes).map mem else []
  | none => []

/-- Modelled from the spec: the state of the engine's backing store, which is
not part of this crate (the native devices live outside src/).  A store maps
a whole path to the contents of the file there, if any. -/
def FileStore : Type := List UInt8 → Option (List UInt8)

/-- Modelled from the spec: "write whole file (truncate+replace)" — after the
write work item completes, path p holds exactly buffer b and every other
path is unchanged. -/
def specWriteFile (st : FileStore) (p b : List UInt8) : FileStore :=
  fun q => if q = p then some b else st q

/-- Modelled from the spec: reading a whole file — the contents at the path,
with a 0 byte appended when null_terminate is requested, or no result when
the path is absent. -/
def specReadFileWhole (st : FileStore) (p : List UInt8) (null_terminate : Bool) :
    Option (List UInt8) :=
  (st p).map fun c => if null_terminate then c ++ [(0 : UInt8)] else c

/-- Modelled from the spec: the engine work-item data a completed whole-file
read produces — on success Ok with an engine-owned buffer holding the
contents, on a missing path NotFound with no buffer. -/
def engineReadItem (st : FileStore) (p : List UInt8) (null_terminate : Bool) :
    EngineWorkItem :=
  match specReadFileWhole st p null_terminate with
  | some c =>
      { result := lfs_error_code_t_LFS_OK, bytes := c.length,
        buffer := some fun i => c.getD i 0 }
  | none =>
      { result := lfs_error_code_t_LFS_NOT_FOUND, bytes := 0, buffer := none }

/-- A concrete engine work-item response used to instantiate theorems. -/
def sampleEngine : EngineWorkItem :=
  { result := lfs_error_code_t_LFS_OK, bytes := 2, buffer := some fun _ => 7 }

/-- A concrete not-yet-waited work item. -/
def sampleItem : WorkItem :=
  { work_item := sampleEngine, context := 0, write_buffer := none,
    finished := false, owns_buffer := true }

/-- A concrete finished work item. -/
def sampleFinishedItem : WorkItem :=
  { work_item := sampleEngine, context := 0, write_buffer := none,
    finished := true, owns_buffer := true }

/-- A concrete context handle. -/
def sampleFS : LaminaFS := { context := 0 }

/-- A concrete successful engine mount response. -/
def sampleMountOutcome : MountOutcome :=
  { mount := 1, result_code := lfs_error_code_t_LFS_OK }

/-- A concrete failed engine mount response: device construction failed. -/
def sampleBadMountOutcome : MountOutcome :=
  { mount := 0, result_code := lfs_error_code_t_LFS_INVALID_DEVICE }

/-- The two path bytes of a short NUL-free path. -/
def samplePath : List UInt8 := [47, 97]

/-- The byte of a short NUL-free device path. -/
def sampleDevPath : List UInt8 := [46]

/-- A path whose middle byte is NUL. -/
def sampleNulPath : List UInt8 := [47, 0, 97]

/-- A concrete two-byte payload buffer. -/
def sampleBuf : List UInt8 := [104, 105]

/-- A concrete empty backing store. -/
def sampleStore : FileStore := fun _ => none

theorem WorkItem.wait_of_finished (s : WorkItem) (h : s.finished = true) :
    s.wait = s := by
  simp [WorkItem.wait, h]

theorem WorkItem.wait_finished (s : WorkItem) : s.wait.finished = true := by
  unfold WorkItem.wait
  split
  · assumption
  · rfl

theorem WorkItem.wait_work_item (s : WorkItem) : s.wait.work_item = s.work_item := by
  unfold WorkItem.wait
  split <;> rfl

theorem WorkItem.wait_wait (s : WorkItem) : s.wait.wait = s.wait :=
  s.wait.wait_of_finished s.wait_finished

theorem WorkItem.get_result_eq (s : WorkItem) :
    s.get_result = (s.wait, ResultCode.from_lamina s.work_item.result) := by
  simp [WorkItem.get_result, WorkItem.wait_work_item]

theorem WorkItem.get_bytes_eq (s : WorkItem) :
    s.get_bytes = (s.wait, s.work_item.bytes) := by
  simp [WorkItem.get_bytes, WorkItem.wait_work_item]

theorem WorkItem.get_buffer_eq (s : WorkItem) :
    s.get_buffer = (s.wait, s.work_item.outputView) := by
  simp only [WorkItem.get_buffer, WorkItem.get_bytes_eq, WorkItem.wait_work_item,
    EngineWorkItem.outputView]
  cases h : s.work_item.buffer <;> simp [h]
  split <;> rfl

theorem CString.new_of_not_mem (s : List UInt8) (h : (0 : UInt8) ∉ s) :
    CString.new s = some s := by
  simp [CString.new, h]

theorem CString.new_isNone (s : List UInt8) :
    (CString.new s).isNone = true ↔ (0 : UInt8) ∈ s := by
  by_cases hz : (0 : UInt8) ∈ s <;> simp [CString.new, hz]

theorem option_isNone_map {α β : Type} (f : α → β) (o : Option α) :
    (o.map f).isNone = o.isNone := by
  cases o <;> rfl

theorem ResultCode.from_lamina_total (error : Nat) (h : error ∈ laminaErrorCodes) :
    ∃ c, ResultCode.from_lamina error = some c := by
  simp only [laminaErrorCodes, List.mem_cons, List.not_mem_nil, or_false] at h
  rcases h with h | h | h | h | h | h | h | h <;> rw [h] <;> exact ⟨_, rfl⟩

theorem range_map_getD {α : Type} (d : α) (l : List α) :
    (List.range l.length).map (fun i => l.getD i d) = l := by
  induction l with
  | nil => rfl
  | cons a t ih =>
      rw [List.length_cons, List.range_succ_eq_map, List.map_cons, List.map_map]
      congr 1

/-- C1: wait() on a Work Item is idempotent — on an already finished item it
is a no-op, and a second wait leaves the state, and hence the Result Code
and the buffer subsequently read, exactly as after the first. -/
theorem wait_idempotent (s t : WorkItem) (h : s.finished = true) :
    s.wait = s ∧
    t.wait.wait = t.wait ∧
    t.wait.wait.get_result = t.wait.get_result ∧
    t.wait.wait.get_buffer = t.wait.get_buffer := by
  refine ⟨s.wait_of_finished h, t.wait_wait, ?_, ?_⟩ <;> rw [t.wait_wait]

/-- Witness for C1 at concrete work items. -/
theorem wait_idempotent_witness :
    sampleFinishedItem.finished = true ∧
    (sampleFinishedItem.wait = sampleFinishedItem ∧
     sampleItem.wait.wait = sampleItem.wait ∧
     sampleItem.wait.wait.get_result = sampleItem.wait.get_result ∧
     sampleItem.wait.wait.get_buffer = sampleItem.wait.get_buffer) :=
  ⟨rfl, wait_idempotent sampleFinishedItem sampleItem rfl⟩

/-- C2: get_result, get_bytes and get_buffer each first wait — afterwards
the finished flag is true — and then return, respectively, the translated
engine Result Code, the engine output length, and the read-only view of the
engine output. -/
theorem accessors_imply_wait (s : WorkItem) :
    s.get_result.1.finished = true ∧
    s.get_result.2 = ResultCode.from_lamina s.work_item.result ∧
    s.get_bytes.1.finished = true ∧
    s.get_bytes.2 = s.work_item.bytes ∧
    s.get_buffer.1.finished = true ∧
    s.get_buffer.2 = s.work_item.outputView := by
  simp [WorkItem.get_result_eq, WorkItem.get_bytes_eq, WorkItem.get_buffer_eq,
    WorkItem.wait_finished]

/-- C5: when the engine reports one of the eight defined lamina error codes,
get_result on a work item returns a member of the closed eight-element
ResultCode enumeration and the panic branch of from_lamina is unreachable. -/
theorem get_result_closed_enum (s : WorkItem)
    (h : s.work_item.result ∈ laminaErrorCodes) :
    ∃ c : ResultCode, s.get_result.2 = some c := by
  rw [WorkItem.get_result_eq]
  exact ResultCode.from_lamina_total s.work_item.result h

/-- Witness for C5 at a concrete work item. -/
theorem get_result_closed_enum_witness :
    sampleItem.work_item.result ∈ laminaErrorCodes ∧
    ∃ c : ResultCode, sampleItem.get_result.2 = some c :=
  ⟨by decide, get_result_closed_enum sampleItem (by decide)⟩

/-- C6: get_buffer on a completed item returns, when the engine buffer
pointer is non-null and the byte count positive, a slice whose length equals
get_bytes, and otherwise the empty slice. -/
theorem get_buffer_view (s : WorkItem) :
    (∀ mem : Nat → UInt8, s.work_item.buffer = some mem → 0 < s.work_item.bytes →
      s.get_buffer.2.length = s.get_bytes.2) ∧
    (s.work_item.buffer = none → s.get_buffer.2 = []) ∧
    (s.work_item.bytes = 0 → s.get_buffer.2 = []) := by
  simp only [WorkItem.get_buffer_eq, WorkItem.get_bytes_eq, EngineWorkItem.outputView]
  refine ⟨?_, ?_, ?_⟩
  · intro mem hm hb
    simp [hm, hb]
  · intro hn
    simp [hn]
  · intro h0
    cases hb : s.work_item.buffer <;> simp [hb, h0]

/-- Witness for C6 at a concrete work item with a non-null two-byte engine
buffer. -/
theorem get_buffer_view_witness :
    sampleItem.get_buffer.2.length = sampleItem.get_bytes.2 :=
  (get_buffer_view sampleItem).1 (fun _ => 7) rfl (by decide)

/-- C7: create_mount behaves identically to create_mount_with_permissions
called with the Default permission mask, for every device type, mount point
and device path. -/
theorem create_mount_default (fs : LaminaFS) (eng : MountOutcome) (device_type : Nat)
    (mount_point device_path : List UInt8) :
    fs.create_mount eng device_type mount_point device_path =
      fs.create_mount_with_permissions eng device_type mount_point device_path
        MountPermissions.Default := rfl

/-- C10: the ResultCode conversions round-trip — from_lamina after to_lamina
is the identity on every member of the enumeration. -/
theorem result_code_roundtrip (c : ResultCode) :
    ResultCode.from_lamina c.to_lamina = some c := by
  cases c <;> rfl

/-- C3: releasing a Work Item first waits for completion, frees the engine
buffer exactly when owns_buffer is set — which the submissions set to true
exactly for read_file and read_file_segment — then releases the slot back to
the context pool; write/append submissions retain the caller buffer in
write_buffer and never free it through the engine. -/
theorem drop_buffer_ownership (fs : LaminaFS) (e : EngineWorkItem) (p b : List UInt8)
    (nt : Bool) (off mb : Nat) (hp : (0 : UInt8) ∉ p) :
    (∃ w, fs.read_file e p nt = some w ∧ w.owns_buffer = true ∧
      EngineAction.freeBuffer ∈ w.dropActions) ∧
    (∃ w, fs.read_file_segment e p off mb nt = some w ∧ w.owns_buffer = true ∧
      EngineAction.freeBuffer ∈ w.dropActions) ∧
    (∃ w, fs.write_file e p b = some w ∧ w.owns_buffer = false ∧
      w.write_buffer = some b ∧ EngineAction.freeBuffer ∉ w.dropActions) ∧
    (∃ w, fs.write_file_segment e p off b = some w ∧ w.owns_buffer = false ∧
      w.write_buffer = some b ∧ EngineAction.freeBuffer ∉ w.dropActions) ∧
    (∃ w, fs.append_file e p b = some w ∧ w.owns_buffer = false ∧
      w.write_buffer = some b ∧ EngineAction.freeBuffer ∉ w.dropActions) ∧
    (∃ w, fs.create_dir e p = some w ∧ w.owns_buffer = false) ∧
    (∃ w, fs.delete_dir e p = some w ∧ w.owns_buffer = false) ∧
    (∃ w, fs.delete_file e p = some w ∧ w.owns_buffer = false) ∧
    (∃ w, fs.file_exists e p = some w ∧ w.owns_buffer = false) ∧
    ∀ t : WorkItem,
      (EngineAction.freeBuffer ∈ t.dropActions ↔ t.owns_buffer = true) ∧
      EngineAction.releaseWorkItem ∈ t.dropActions ∧
      (EngineAction.waitForWorkItem ∈ t.dropActions ↔ t.finished = false) ∧
      t.dropActions.getLast? = some EngineAction.releaseWorkItem := by
  have hc : CString.new p = some p := CString.new_of_not_mem p hp
  refine ⟨?_, ?_, ?_, ?_, ?_, ?_, ?_, ?_, ?_, ?_⟩
  · refine ⟨({ work_item := e, context := fs.context, write_buffer := none, finished := false, owns_buffer := true } : WorkItem), ?_, rfl, ?_⟩
    · simp [LaminaFS.read_file, hc]
    · simp [WorkItem.dropActions]
  · refine ⟨({ work_item := e, context := fs.context, write_buffer := none, finished := false, owns_buffer := true } : WorkItem), ?_, rfl, ?_⟩
    · simp [LaminaFS.read_file_segment, hc]
    · simp [WorkItem.dropActions]
  · refine ⟨({ work_item := e, context := fs.context, write_buffer := some b, finished := false, owns_buffer := false } : WorkItem), ?_, rfl, rfl, ?_⟩
    · simp [LaminaFS.write_file, hc]
    · simp [WorkItem.dropActions]
  · refine ⟨({ work_item := e, context := fs.context, write_buffer := some b, finished := false, owns_buffer := false } : WorkItem), ?_, rfl, rfl, ?_⟩
    · simp [LaminaFS.write_file_segment, hc]
    · simp [WorkItem.dropActions]
  · refine ⟨({ work_item := e, context := fs.context, write_buffer := some b, finished := false, owns_buffer := false } : WorkItem), ?_, rfl, rfl, ?_⟩
    · simp [LaminaFS.append_file, hc]
    · simp [WorkItem.dropActions]
  · exact ⟨({ work_item := e, context := fs.context, write_buffer := none, finished := false, owns_buffer := false } : WorkItem), by simp [LaminaFS.create_dir, hc], rfl⟩
  · exact ⟨({ work_item := e, context := fs.context, write_buffer := none, finished := false, owns_buffer := false } : WorkItem), by simp [LaminaFS.delete_dir, hc], rfl⟩
  · exact ⟨({ work_item := e, context := fs.context, write_buffer := none, finished := false, owns_buffer := false } : WorkItem), by simp [LaminaFS.delete_file, hc], rfl⟩
  · exact ⟨({ work_item := e, context := fs.context, write_buffer := none, finished := false, owns_buffer := false } : WorkItem), by simp [LaminaFS.file_exists, hc], rfl⟩
  · rintro ⟨wi, ctx, wb, fin, ob⟩
    cases fin <;> cases ob <;> simp [WorkItem.dropActions]

/-- Witness for C3 at a concrete path and buffer: the read_file component. -/
theorem drop_buffer_ownership_witness :
    ∃ w, sampleFS.read_file sampleEngine samplePath false = some w ∧
      w.owns_buffer = true ∧ EngineAction.freeBuffer ∈ w.dropActions :=
  (drop_buffer_ownership sampleFS sampleEngine samplePath sampleBuf false 0 0
    (by decide)).1

/-- C4: create_mount_with_permissions produces a Mount exactly when the
engine reports LFS_OK, and on device construction failure (the engine
reporting LFS_INVALID_DEVICE) it returns Err InvalidDevice synchronously. -/
theorem create_mount_invalid_device (fs : LaminaFS) (eng : MountOutcome)
    (device_type : Nat) (mp dp : List UInt8) (perms : MountPermissions)
    (hmp : (0 : UInt8) ∉ mp) (hdp : (0 : UInt8) ∉ dp) :
    ((∃ m, fs.create_mount_with_permissions eng device_type mp dp perms =
        some (Except.ok m)) ↔ eng.result_code = lfs_error_code_t_LFS_OK) ∧
    (eng.result_code = lfs_error_code_t_LFS_INVALID_DEVICE →
      fs.create_mount_with_permissions eng device_type mp dp perms =
        some (Except.error ResultCode.InvalidDevice)) := by
  have hm : CString.new mp = some mp := CString.new_of_not_mem mp hmp
  have hd : CString.new dp = some dp := CString.new_of_not_mem dp hdp
  unfold LaminaFS.create_mount_with_permissions
  rw [hm, hd]
  constructor
  · constructor
    · rintro ⟨m, hEq⟩
      by_contra hne
      rw [if_neg hne] at hEq
      rcases hfl : ResultCode.from_lamina eng.result_code with _ | c <;>
        simp [hfl] at hEq
    · intro hok
      rw [if_pos hok]
      exact ⟨_, rfl⟩
  · intro hinv
    rw [hinv]
    rfl

/-- Witness for C4 at a concrete failed mount outcome. -/
theorem create_mount_invalid_device_witness :
    sampleFS.create_mount_with_permissions sampleBadMountOutcome 0 samplePath
      sampleDevPath MountPermissions.Default =
      some (Except.error ResultCode.InvalidDevice) :=
  (create_mount_invalid_device sampleFS sampleBadMountOutcome 0 samplePath
    sampleDevPath MountPermissions.Default (by decide) (by decide)).2 rfl

/-- C9: every public operation taking a path or mount-point string panics
(CString::new .unwrap()) exactly when that string contains a NUL byte; on
NUL-free strings the conversion succeeds and the operation proceeds. -/
theorem nul_byte_panics (fs : LaminaFS) (eng : MountOutcome) (e : EngineWorkItem)
    (device_type : Nat) (mp dp p b : List UInt8) (nt : Bool) (off mb : Nat)
    (perms : MountPermissions) :
    ((0 : UInt8) ∈ mp ∨ (0 : UInt8) ∈ dp →
      fs.create_mount_with_permissions eng device_type mp dp perms = none) ∧
    ((0 : UInt8) ∉ mp → (0 : UInt8) ∉ dp → eng.result_code ∈ laminaErrorCodes →
      (fs.create_mount_with_permissions eng device_type mp dp perms).isSome = true) ∧
    ((fs.read_file e p nt).isNone = true ↔ (0 : UInt8) ∈ p) ∧
    ((fs.read_file_segment e p off mb nt).isNone = true ↔ (0 : UInt8) ∈ p) ∧
    ((fs.write_file e p b).isNone = true ↔ (0 : UInt8) ∈ p) ∧
    ((fs.write_file_segment e p off b).isNone = true ↔ (0 : UInt8) ∈ p) ∧
    ((fs.append_file e p b).isNone = true ↔ (0 : UInt8) ∈ p) ∧
    ((fs.create_dir e p).isNone = true ↔ (0 : UInt8) ∈ p) ∧
    ((fs.delete_dir e p).isNone = true ↔ (0 : UInt8) ∈ p) ∧
    ((fs.delete_file e p).isNone = true ↔ (0 : UInt8) ∈ p) ∧
    ((fs.file_exists e p).isNone = true ↔ (0 : UInt8) ∈ p) := by
  refine ⟨?_, ?_, ?_, ?_, ?_, ?_, ?_, ?_, ?_, ?_, ?_⟩
  · rintro (h | h) <;>
      rcases hcm : CString.new mp with _ | v <;>
      rcases hcd : CString.new dp with _ | u <;>
      simp_all [LaminaFS.create_mount_with_permissions, CString.new]
  · intro hmp hdp hcode
    rw [LaminaFS.create_mount_with_permissions, CString.new_of_not_mem mp hmp,
      CString.new_of_not_mem dp hdp]
    by_cases hok : eng.result_code = lfs_error_code_t_LFS_OK
    · simp [hok]
    · obtain ⟨c, hc⟩ := ResultCode.from_lamina_total eng.result_code hcode
      simp [hok, hc]
  · rw [LaminaFS.read_file, option_isNone_map]
    exact CString.new_isNone p
  · rw [LaminaFS.read_file_segment, option_isNone_map]
    exact CString.new_isNone p
  · rw [LaminaFS.write_file, option_isNone_map]
    exact CString.new_isNone p
  · rw [LaminaFS.write_file_segment, option_isNone_map]
    exact CString.new_isNone p
  · rw [LaminaFS.append_file, option_isNone_map]
    exact CString.new_isNone p
  · rw [LaminaFS.create_dir, option_isNone_map]
    exact CString.new_isNone p
  · rw [LaminaFS.delete_dir, option_isNone_map]
    exact CString.new_isNone p
  · rw [LaminaFS.delete_file, option_isNone_map]
    exact CString.new_isNone p
  · rw [LaminaFS.file_exists, option_isNone_map]
    exact CString.new_isNone p

/-- Witness for C9: read_file at a concrete path holding a NUL byte panics. -/
theorem nul_byte_panics_witness :
    (sampleFS.read_file sampleEngine sampleNulPath false).isNone = true :=
  (nul_byte_panics sampleFS sampleMountOutcome sampleEngine 0 samplePath
    sampleDevPath sampleNulPath sampleBuf false 0 0
    MountPermissions.Default).2.2.1.mpr (by decide)

/-- C8: write-then-read round-trip — after a whole-file write of buffer b to
path p the engine store holds b at p, and a whole-file read of p without
null-termination completes with Ok and a buffer equal to b. -/
theorem write_read_roundtrip (st : FileStore) (fs : LaminaFS) (ew : EngineWorkItem)
    (p b : List UInt8) (hp : (0 : UInt8) ∉ p) :
    (∃ ww, fs.write_file ew p b = some ww ∧ ww.wait.finished = true) ∧
    (∃ w, fs.read_file (engineReadItem (specWriteFile st p b) p false) p false = some w ∧
      w.get_result.2 = some ResultCode.Ok ∧
      w.get_buffer.2 = b) := by
  have hc : CString.new p = some p := CString.new_of_not_mem p hp
  have hread : engineReadItem (specWriteFile st p b) p false =
      { result := lfs_error_code_t_LFS_OK, bytes := b.length,
        buffer := some fun i => b.getD i 0 } := by
    simp [engineReadItem, specReadFileWhole, specWriteFile]
  constructor
  · refine ⟨({ work_item := ew, context := fs.context, write_buffer := some b, finished := false, owns_buffer := false } : WorkItem), ?_, WorkItem.wait_finished _⟩
    simp [LaminaFS.write_file, hc]
  · refine ⟨({ work_item := engineReadItem (specWriteFile st p b) p false, context := fs.context, write_buffer := none, finished := false, owns_buffer := true } : WorkItem), ?_, ?_, ?_⟩
    · simp [LaminaFS.read_file, hc]
    · rw [WorkItem.get_result_eq]
      show ResultCode.from_lamina (engineReadItem (specWriteFile st p b) p false).result =
        some ResultCode.Ok
      rw [hread]
      rfl
    · rw [WorkItem.get_buffer_eq]
      show (engineReadItem (specWriteFile st p b) p false).outputView = b
      rw [hread]
      cases b with
      | nil => rfl
      | cons x xs =>
          simp only [EngineWorkItem.outputView, List.length_cons, Nat.succ_pos, if_pos]
          exact range_map_getD 0 (x :: xs)

/-- Witness for C8 at a concrete store, path and buffer. -/
theorem write_read_roundtrip_witness :
    (∃ ww, sampleFS.write_file sampleEngine samplePath sampleBuf = some ww ∧
      ww.wait.finished = true) ∧
    (∃ w, sampleFS.read_file
        (engineReadItem (specWriteFile sampleStore samplePath sampleBuf) samplePath false)
        samplePath false = some w ∧
      w.get_result.2 = some ResultCode.Ok ∧
      w.get_buffer.2 = sampleBuf) :=
  write_read_roundtrip sampleStore sampleFS sampleEngine samplePath sampleBuf (by decide)
